import Mathlib

/-!
Shallow embedding of the glassdoor-salary-api repository (TypeScript).

Sources embedded:
- `src/cache.ts` (src/unnamed/part_005): key generation, set/get with TTL,
  clear-by-prefix, stats.
- `src/glassdoor.ts` (src/unnamed/part_003): `formatName`, `formatSalary`,
  the three lookup steps and the orchestrator `getSalaryInfo`.

Modelling conventions:
- Time is an explicit `Nat` of milliseconds (the JS code uses `Date.now()`);
  a single request runs at one instant, carried in `World.now`.
- The cache (a JS object with unique string keys) is an association list;
  `cache[key] = v` is modelled as remove-then-prepend, `delete cache[key]`
  as removing every binding of that key, lookup as first binding.
- JS `undefined` flowing through optional chains is `Option`; a thrown
  `Error`/`TypeError` is `Except.error` carrying the message.
- Salary amounts are `Nat` (the JSON payloads carry non-negative integers);
  `Math.round (a / b)` on such amounts is `jsRoundDiv`.
- Character classes are the ASCII fragment of the JS regexes: `\w` is
  exactly ASCII `[A-Za-z0-9_]` in a non-unicode regex, and `\s`, `trim`
  are modelled on the ASCII whitespace characters.
- Network transport is abstracted: the upstream endpoints are parameters
  (`Upstreams`), each returning the already-extracted list that the code
  extracts from a successful response; the payload-extraction hazard of
  `fetchSalaries` (line 155 of part_003) is modelled separately and
  faithfully in `extractSalaryResults`.
-/

namespace GlassdoorApi

/-! ### ASCII character classes used by the JS regexes and trim -/

/-- ASCII whitespace as matched by the JS regex class `\s` and by
`String.prototype.trim` (space, tab, LF, CR, VT, FF); the model covers the
ASCII fragment. -/
def isSpaceChar (c : Char) : Bool :=
  c == ' ' || c == '\t' || c == '\n' || c == '\r' || c == Char.ofNat 11 || c == Char.ofNat 12

/-- The JS regex class `\w` (non-unicode): ASCII letters, digits and the
underscore. -/
def isWordChar (c : Char) : Bool :=
  c.isAlphanum || c == '_'

/-- JS `String.prototype.trim` (ASCII fragment): drop whitespace at both
ends. -/
def jsTrim (s : String) : String :=
  String.mk (((s.toList.dropWhile isSpaceChar).reverse.dropWhile isSpaceChar).reverse)

/-- JS `String.prototype.toLowerCase` on ASCII strings: lowercase each
character. -/
def jsToLowerCase (s : String) : String :=
  String.mk (s.toList.map Char.toLower)

/-- JS `String.prototype.startsWith`: the argument is a prefix of the
receiver. -/
def jsStartsWith (s pre : String) : Bool :=
  pre.toList.isPrefixOf s.toList

/-- `trim().toLowerCase()` as applied to every key part in cache.ts. -/
def normalizeInput (s : String) : String :=
  jsToLowerCase (jsTrim s)

/-! ### Cache store (src/cache.ts) -/

/-- cache.ts lines 6-9: an entry is a value plus an absolute expiry time in
milliseconds. -/
structure CacheEntry (α : Type) where
  value : α
  expiresAt : Nat
deriving DecidableEq, Repr

/-- cache.ts line 12: the process-local store, a string-keyed map. -/
abbrev Cache (α : Type) : Type := List (String × CacheEntry α)

/-- First binding of a key (a JS object holds at most one per key). -/
def cacheLookup {α : Type} (c : Cache α) (key : String) : Option (CacheEntry α) :=
  (c.find? (fun e => e.1 == key)).map (fun e => e.2)

/-- cache.ts lines 20-25: `generateCacheKey`. -/
def generateCacheKey (companyName jobTitle : String) : String :=
  "salary:" ++ normalizeInput companyName ++ ":" ++ normalizeInput jobTitle

/-- cache.ts lines 32-35: `generateCompanyCacheKey`. -/
def generateCompanyCacheKey (companyName : String) : String :=
  "company:" ++ normalizeInput companyName

/-- cache.ts lines 42-45: `generateJobCacheKey`. -/
def generateJobCacheKey (jobTitle : String) : String :=
  "job:" ++ normalizeInput jobTitle

/-- cache.ts lines 53-59: `setCacheValue` overwrites the binding for the key
with expiry `now + ttlSeconds * 1000`. -/
def setCacheValue {α : Type} (c : Cache α) (now : Nat) (key : String) (value : α)
    (ttlSeconds : Nat) : Cache α :=
  (key, { value := value, expiresAt := now + ttlSeconds * 1000 }) ::
    c.filter (fun e => e.1 != key)

/-- cache.ts lines 66-85: `getCacheValue` returns the value, or `none` when
the key is unbound or `now > expiresAt` (deleting the expired binding as a
side effect, returned as the second component). -/
def getCacheValue {α : Type} (c : Cache α) (now : Nat) (key : String) :
    Option α × Cache α :=
  match cacheLookup c key with
  | none => (none, c)
  | some entry =>
    if now > entry.expiresAt then
      (none, c.filter (fun e => e.1 != key))
    else
      (some entry.value, c)

/-- cache.ts lines 91-107: `clearCache`; with a prefix it deletes every key
satisfying JS `startsWith`, without one it deletes everything.  (A JS empty
string argument is falsy and takes the delete-everything branch; both
branches delete everything for the empty prefix, so the model needs no
special case.) -/
def clearCache {α : Type} (c : Cache α) (pfx : Option String) : Cache α :=
  match pfx with
  | some p => c.filter (fun e => !(jsStartsWith e.1 p))
  | none => []

/-- The substring of a key before the first colon delimiter, the JS
expression splitting the key at the colon and taking element 0
(cache.ts line 124). -/
def keyNamespace (key : String) : String :=
  String.mk (key.toList.takeWhile (fun c => c != ':'))

/-- cache.ts lines 113-133: the stats record.  `byPrefix` is the counting
map, given denotationally as a function from namespace to count. -/
structure CacheStats where
  totalEntries : Nat
  byPrefix : String → Nat
  memoryUsageEstimate : Nat

/-- cache.ts lines 113-133: `getCacheStats` walks every stored binding,
never consulting `expiresAt`.  `sz` abstracts `JSON.stringify(value).length`
(an external serialization primitive); the heuristic doubles it per entry. -/
def getCacheStats {α : Type} (sz : α → Nat) (c : Cache α) : CacheStats where
  totalEntries := c.length
  byPrefix := fun p => (c.filter (fun e => keyNamespace e.1 == p)).length
  memoryUsageEstimate := (c.map (fun e => sz e.2.value * 2)).sum

/-! ### Formatting helpers (src/glassdoor.ts lines 167-215) -/

/-- glassdoor.ts line 172 and 175: truncate at the first comma or opening
parenthesis, trim, then delete every character matching `[^\w\s]`.  Falsy
(empty) input returns the empty string (line 169). -/
def formatName (name : String) : String :=
  if name == "" then ""
  else
    let truncated := name.toList.takeWhile (fun c => c != ',' && c != '(')
    let trimmed :=
      ((truncated.dropWhile isSpaceChar).reverse.dropWhile isSpaceChar).reverse
    String.mk (trimmed.filter (fun c => isWordChar c || isSpaceChar c))

/-- glassdoor.ts lines 191-199: the currency symbol table; an unknown code
yields the empty symbol (line 201). -/
def currencySymbols (currency : String) : String :=
  match currency with
  | "INR" => "₹"
  | "GBP" => "£"
  | "USD" => "$"
  | "EUR" => "€"
  | "JPY" => "¥"
  | "AUD" => "A$"
  | "CAD" => "C$"
  | _ => ""

/-- JS `Math.round (a / b)` for natural `a`, positive `b`: round half away
from zero, i.e. the floor of `a / b + 1 / 2`. -/
def jsRoundDiv (a b : Nat) : Nat :=
  (2 * a + b) / (2 * b)

/-- glassdoor.ts lines 186-215: `formatSalary`.  The JS parameters may be
`undefined` at the call sites in `getSalaryInfo` (missing percentile or
currency), hence the `Option` arguments; `!salary` is true for `undefined`
and for `0`, and an absent currency indexes the symbol table to
`undefined`, defaulted to the empty symbol. -/
def formatSalary (salary : Option Nat) (currency : Option String) : String :=
  match salary with
  | none => "N/A"
  | some s =>
    if s == 0 then "N/A"
    else
      let currencySymbol :=
        match currency with
        | none => ""
        | some code => currencySymbols code
      if s ≥ 10000000 then currencySymbol ++ toString (jsRoundDiv s 10000000) ++ " cr"
      else if s ≥ 100000 then currencySymbol ++ toString (jsRoundDiv s 100000) ++ " lakh"
      else if s ≥ 1000 then currencySymbol ++ toString (jsRoundDiv s 1000) ++ " k"
      else currencySymbol ++ toString s

/-! ### Data model of the pipeline (src/glassdoor.ts) -/

/-- The fields of an employer record that `getSalaryInfo` destructures
(glassdoor.ts line 247): id, name, overallRating.  The rating flows through
the pipeline untouched; it is carried as a rational. -/
structure Company where
  id : Nat
  name : String
  overallRating : Rat
deriving DecidableEq, Repr

/-- The fields of a job-title autocomplete record that `getSalaryInfo`
destructures (glassdoor.ts line 255): id, label. -/
structure Job where
  id : Nat
  label : String
deriving DecidableEq, Repr

/-- A currency object with its code (glassdoor.ts line 264). -/
structure Currency where
  code : String
deriving DecidableEq, Repr

/-- A percentile record: a label such as P25/P50/P75 and a value
(glassdoor.ts lines 267-270). -/
structure Percentile where
  ident : String
  value : Nat
deriving DecidableEq, Repr

/-- The totalPayStatistics object with its percentile list. -/
structure PayStatistics where
  percentiles : List Percentile
deriving DecidableEq, Repr

/-- A salary result record as consumed by `getSalaryInfo` (lines 263-285);
every field may be absent, and the empty-object placeholder of line 263 is
the record with all fields absent. -/
structure SalaryRecord where
  currency : Option Currency := none
  salaryCount : Option Nat := none
  totalPayStatistics : Option PayStatistics := none
deriving DecidableEq, Repr

/-- The composed result (glassdoor.ts lines 278-296). -/
structure CompanyInfo where
  name : String
  rating : Rat
deriving DecidableEq, Repr

/-- The job part of the composed result. -/
structure JobInfo where
  title : String
  salaryCount : Nat
deriving DecidableEq, Repr

/-- The salary part of the composed result. -/
structure SalaryInfo where
  currency : Option String
  low : String
  median : String
  high : String
  range : String
deriving DecidableEq, Repr

/-- The object assembled at glassdoor.ts lines 278-296; the ISO timestamp
is carried as the instant (ms) at which it was produced. -/
structure ComposedResult where
  company : CompanyInfo
  job : JobInfo
  salary : SalaryInfo
  source : String
  timestamp : Nat
deriving DecidableEq, Repr

/-- The cache stores employer lists (company namespace), job lists (job
namespace) and composed results (salary namespace); JS stores them untyped
in one map. -/
inductive CacheVal : Type where
  | companies (cs : List Company)
  | jobs (js : List Job)
  | result (r : ComposedResult)
deriving DecidableEq, Repr

/-- The mutable program state threaded through a request: the shared cache,
the current instant in ms, and a counter of outbound upstream calls
(instrumentation for the zero-further-upstream-calls property). -/
structure World where
  cache : Cache CacheVal
  now : Nat
  upstreamCalls : Nat
deriving DecidableEq, Repr

/-- The three upstream endpoints, abstracted to the value each fetcher
extracts from a successful response: the employer array from the nested
envelope, the autocomplete array, and the salary results array. -/
structure Upstreams where
  companies : String → List Company
  jobs : String → List Job
  salaries : Nat → Nat → String → List SalaryRecord

/-! ### Upstream lookup pipeline (src/glassdoor.ts) -/

/-- glassdoor.ts lines 17-54: `fetchGlassdoorCompanies`.  Company cache
checked first; on a miss one upstream call is made and a non-empty result
is cached for 30 days.  (Transport and configuration failures abort the
whole request and are outside the composed-result claims, so the model
covers the successful-response path.) -/
def fetchGlassdoorCompanies (up : Upstreams) (w : World) (companyName : String) :
    List Company × World :=
  let key := generateCompanyCacheKey companyName
  let hit := getCacheValue w.cache w.now key
  match hit.1 with
  | some (CacheVal.companies cs) => (cs, { w with cache := hit.2 })
  | _ =>
    let companies := up.companies companyName
    let w1 : World := { w with cache := hit.2, upstreamCalls := w.upstreamCalls + 1 }
    let newCache :=
      if companies.length > 0 then
        setCacheValue w1.cache w1.now key (CacheVal.companies companies) (30 * 24 * 60 * 60)
      else w1.cache
    (companies, { w1 with cache := newCache })

/-- glassdoor.ts lines 61-112: `fetchJobTitles`, same shape as the company
fetcher with the job namespace and a 30-day TTL. -/
def fetchJobTitles (up : Upstreams) (w : World) (jobTitleInput : String) :
    List Job × World :=
  let key := generateJobCacheKey jobTitleInput
  let hit := getCacheValue w.cache w.now key
  match hit.1 with
  | some (CacheVal.jobs js) => (js, { w with cache := hit.2 })
  | _ =>
    let jobs := up.jobs jobTitleInput
    let w1 : World := { w with cache := hit.2, upstreamCalls := w.upstreamCalls + 1 }
    let newCache :=
      if jobs.length > 0 then
        setCacheValue w1.cache w1.now key (CacheVal.jobs jobs) (30 * 24 * 60 * 60)
      else w1.cache
    (jobs, { w1 with cache := newCache })

/-- glassdoor.ts lines 121-160: `fetchSalaries` is never cache-checked; it
always issues one upstream call when reached. -/
def fetchSalaries (up : Upstreams) (w : World) (companyId jobId : Nat)
    (jobTitle : String) : List SalaryRecord × World :=
  (up.salaries companyId jobId jobTitle,
   { w with upstreamCalls := w.upstreamCalls + 1 })

/-- glassdoor.ts lines 263-296: from the salary list take the first record
(or the empty placeholder), read the currency code and the P25/P50/P75
percentile values through optional chains, format them, and assemble the
composed result. -/
def composeResult (w : World) (glassdoorCompanyName : String) (companyRating : Rat)
    (jobName : String) (salaries : List SalaryRecord) : ComposedResult :=
  let salary := salaries.headD {}
  let salaryCurrency := salary.currency.map Currency.code
  let salaryPercentiles := (salary.totalPayStatistics.map PayStatistics.percentiles).getD []
  let salaryLow := (salaryPercentiles.find? (fun item => item.ident == "P25")).map Percentile.value
  let salaryMed := (salaryPercentiles.find? (fun item => item.ident == "P50")).map Percentile.value
  let salaryHigh := (salaryPercentiles.find? (fun item => item.ident == "P75")).map Percentile.value
  let salaryLowRange := formatSalary salaryLow salaryCurrency
  let salaryMedian := formatSalary salaryMed salaryCurrency
  let salaryHighRange := formatSalary salaryHigh salaryCurrency
  { company := { name := glassdoorCompanyName, rating := companyRating }
    job := { title := jobName, salaryCount := salary.salaryCount.getD 0 }
    salary :=
      { currency := salaryCurrency
        low := salaryLowRange
        median := salaryMedian
        high := salaryHighRange
        range := salaryLowRange ++ " - " ++ salaryHighRange }
    source := "Glassdoor"
    timestamp := w.now }

/-- glassdoor.ts lines 223-306: `getSalaryInfo`.  The combined cache key is
computed from the RAW arguments (line 226); `formatName` is applied only
afterwards (lines 238-239) to the strings passed to the lookups.  An empty
company or job list raises; an empty salary list falls through to the empty
placeholder (lines 259-263).  The composed result is cached for 15 days. -/
def getSalaryInfo (up : Upstreams) (w : World) (companyName jobTitle : String) :
    Except String ComposedResult × World :=
  let cacheKey := generateCacheKey companyName jobTitle
  let hit := getCacheValue w.cache w.now cacheKey
  match hit.1 with
  | some (CacheVal.result r) => (Except.ok r, { w with cache := hit.2 })
  | _ =>
    let w1 : World := { w with cache := hit.2 }
    let formattedCompanyName := formatName companyName
    let formattedJobTitle := formatName jobTitle
    let fc := fetchGlassdoorCompanies up w1 formattedCompanyName
    match fc.1 with
    | [] => (Except.error ("No company found matching " ++ companyName), fc.2)
    | company :: _ =>
      let fj := fetchJobTitles up fc.2 formattedJobTitle
      match fj.1 with
      | [] => (Except.error ("No job titles found matching " ++ jobTitle), fj.2)
      | job :: _ =>
        let fs := fetchSalaries up fj.2 company.id job.id job.label
        let result := composeResult fs.2 company.name company.overallRating job.label fs.1
        let newCache :=
          setCacheValue fs.2.cache fs.2.now cacheKey (CacheVal.result result) (15 * 24 * 60 * 60)
        (Except.ok result, { fs.2 with cache := newCache })

/-! ### Payload extraction of fetchSalaries (glassdoor.ts lines 154-155) -/

/-- The aggregatedSalaryEstimates object of a salary response; its results
array may be absent. -/
structure AggregatedSalaryEstimates where
  results : Option (List SalaryRecord)
deriving DecidableEq, Repr

/-- The data object of the first batched response element; its
aggregatedSalaryEstimates field may be absent. -/
structure SalaryResponseData where
  aggregatedSalaryEstimates : Option AggregatedSalaryEstimates
deriving DecidableEq, Repr

/-- One element of the batched GraphQL response array; its data field may
be absent. -/
structure SalaryResponseElem where
  data : Option SalaryResponseData
deriving DecidableEq, Repr

/-- glassdoor.ts line 155: the chain guards element 0 and data with
optional chaining, so their absence short-circuits to the default empty
list; but the access to results on aggregatedSalaryEstimates is unguarded,
so an absent aggregatedSalaryEstimates makes the member access throw a
TypeError (modelled as the error branch). -/
def extractSalaryResults (resp : List SalaryResponseElem) :
    Except String (List SalaryRecord) :=
  match resp.head? with
  | none => Except.ok []
  | some elem =>
    match elem.data with
    | none => Except.ok []
    | some d =>
      match d.aggregatedSalaryEstimates with
      | none =>
        Except.error "TypeError: Cannot read properties of undefined (reading results)"
      | some agg => Except.ok (agg.results.getD [])

/-! ### Shared helper lemmas -/

/-- Finding a key in a key-filtered association list: the filter predicate
decides whether the key can still be found. -/
theorem find?_filter_eq {α : Type} (c : List (String × α)) (q : String → Bool)
    (k : String) :
    (c.filter (fun e => q e.1)).find? (fun e => e.1 == k)
      = if q k then c.find? (fun e => e.1 == k) else none := by
  induction c with
  | nil => by_cases hq : q k <;> simp [hq]
  | cons hd tl ih =>
    by_cases hk : hd.1 = k
    · subst hk
      by_cases hq : q hd.1 <;> simp [List.filter_cons, hq, List.find?, ih]
    · have hbeq : (hd.1 == k) = false := by simp [hk]
      by_cases hq : q hd.1 <;> simp [List.filter_cons, hq, List.find?, hbeq, ih]

/-- `cacheLookup` through a key filter. -/
theorem cacheLookup_filter {α : Type} (c : Cache α) (q : String → Bool)
    (k : String) :
    cacheLookup (c.filter (fun e => q e.1)) k
      = if q k then cacheLookup c k else none := by
  unfold cacheLookup
  rw [find?_filter_eq]
  by_cases hq : q k <;> simp [hq]

/-! ### Claim C3: the salary formatter -/

/-- Modelled from the claim wording of C3: the currency-symbol table
INR, GBP, USD, EUR, JPY, AUD, CAD, with the empty symbol for an unknown
code. -/
def claimCurrencyTable (code : String) : String :=
  match code with
  | "INR" => "₹"
  | "GBP" => "£"
  | "USD" => "$"
  | "EUR" => "€"
  | "JPY" => "¥"
  | "AUD" => "A$"
  | "CAD" => "C$"
  | _ => ""

/-- Modelled from the claim wording of C3: prefix the symbol, N/A on a
falsy/zero amount, then the descending South-Asian magnitude thresholds. -/
def formatSalaryClaimed (salary : Option Nat) (currency : Option String) : String :=
  let symbol :=
    match currency with
    | none => ""
    | some code => claimCurrencyTable code
  match salary with
  | none => "N/A"
  | some a =>
    if a == 0 then "N/A"
    else if a ≥ 10000000 then symbol ++ toString (jsRoundDiv a 10000000) ++ " cr"
    else if a ≥ 100000 then symbol ++ toString (jsRoundDiv a 100000) ++ " lakh"
    else if a ≥ 1000 then symbol ++ toString (jsRoundDiv a 1000) ++ " k"
    else symbol ++ toString a

/-- C3: formatSalary agrees with the claimed description on every amount
and currency (including the absent values JS passes as undefined), and the
five quoted examples evaluate as the claim states. -/
theorem c3_formatSalary_matches_claim :
    (∀ (salary : Option Nat) (currency : Option String),
        formatSalary salary currency = formatSalaryClaimed salary currency)
    ∧ formatSalary (some 12000000) (some "USD") = "$1 cr"
    ∧ formatSalary (some 250000) (some "INR") = "₹3 lakh"
    ∧ formatSalary (some 5000) (some "EUR") = "€5 k"
    ∧ formatSalary (some 0) (some "USD") = "N/A"
    ∧ formatSalary (some 500) (some "ZZZ") = "500" := by
  refine ⟨?_, rfl, rfl, rfl, rfl, rfl⟩
  intro salary currency
  cases salary <;> cases currency <;> rfl

/-! ### Claim C6: the name sanitizer -/

/-- Modelled from the claim wording of C6: truncate at the first comma or
opening parenthesis, trim, strip every character that is not alphanumeric
or whitespace. -/
def formatNameClaimed (name : String) : String :=
  if name == "" then ""
  else
    let truncated := name.toList.takeWhile (fun c => c != ',' && c != '(')
    let trimmed :=
      ((truncated.dropWhile isSpaceChar).reverse.dropWhile isSpaceChar).reverse
    String.mk (trimmed.filter (fun c => c.isAlphanum || isSpaceChar c))

/-- Amended wording of C6: the kept characters are the alphanumerics, the
underscore, and whitespace (the JS class backslash-w keeps the
underscore). -/
def formatNameAmendedSpec (name : String) : String :=
  if name == "" then ""
  else
    let truncated := name.toList.takeWhile (fun c => c != ',' && c != '(')
    let trimmed :=
      ((truncated.dropWhile isSpaceChar).reverse.dropWhile isSpaceChar).reverse
    String.mk (trimmed.filter (fun c => c.isAlphanum || (c == '_' || isSpaceChar c)))

/-- C6 counterexample: on the input a_b the code keeps the underscore
(the JS class backslash-w includes it), while the claimed
strip-everything-not-alphanumeric-or-whitespace rule would delete it. -/
theorem c6_underscore_counterexample :
    formatName "a_b" = "a_b"
    ∧ formatNameClaimed "a_b" = "ab"
    ∧ formatName "a_b" ≠ formatNameClaimed "a_b" := by
  refine ⟨rfl, rfl, ?_⟩
  decide

/-- C6 amended: formatName truncates at the first comma or opening
parenthesis, trims, and strips every character that is not alphanumeric,
underscore, or whitespace; empty input yields the empty string, and the
three quoted examples hold. -/
theorem c6_formatName_amended :
    (∀ name, formatName name = formatNameAmendedSpec name)
    ∧ formatName "Google, Inc." = "Google"
    ∧ formatName "Example (UK) Ltd" = "Example"
    ∧ formatName "" = "" := by
  refine ⟨?_, rfl, rfl, rfl⟩
  intro name
  unfold formatName formatNameAmendedSpec
  split
  · rfl
  · refine congrArg String.mk (List.filter_congr ?_)
    intro c _
    simp [isWordChar, Bool.or_assoc]

/-! ### Claim C7: cache key normalization -/

/-- C7: every key generator normalizes each part by trim plus lowercase and
joins with the colon delimiter after the namespace tag, so keys are equal
whenever the normalized parts are equal. -/
theorem c7_cacheKey_normalization (c1 j1 c2 j2 : String)
    (hc : normalizeInput c1 = normalizeInput c2)
    (hj : normalizeInput j1 = normalizeInput j2) :
    generateCacheKey c1 j1 = generateCacheKey c2 j2
    ∧ generateCompanyCacheKey c1 = generateCompanyCacheKey c2
    ∧ generateJobCacheKey j1 = generateJobCacheKey j2
    ∧ generateCacheKey c1 j1
        = "salary:" ++ normalizeInput c1 ++ ":" ++ normalizeInput j1
    ∧ generateCompanyCacheKey c1 = "company:" ++ normalizeInput c1
    ∧ generateJobCacheKey j1 = "job:" ++ normalizeInput j1 := by
  unfold generateCacheKey generateCompanyCacheKey generateJobCacheKey
  rw [hc, hj]
  exact ⟨rfl, rfl, rfl, rfl, rfl, rfl⟩

/-- C7 witness: the spec example, keys of (Foo-with-spaces, BAR) and
(space-foo, bar-with-space) coincide. -/
theorem c7_cacheKey_normalization_witness :
    generateCacheKey "Foo  " "BAR" = generateCacheKey " foo" "bar " :=
  (c7_cacheKey_normalization "Foo  " "BAR" " foo" "bar " (by decide) (by decide)).1

/-! ### Claim C9: the fetchSalaries result extraction is not total -/

/-- C9: an absent first batched element or an absent data field yields the
empty list, but a present data object without aggregatedSalaryEstimates
makes the unguarded member access throw, and a present but empty results
list comes back as the empty list. -/
theorem c9_extractSalaryResults_partial :
    extractSalaryResults [] = Except.ok []
    ∧ extractSalaryResults [{ data := none }] = Except.ok []
    ∧ extractSalaryResults [{ data := some { aggregatedSalaryEstimates := none } }]
        = Except.error "TypeError: Cannot read properties of undefined (reading results)"
    ∧ extractSalaryResults
        [{ data := some { aggregatedSalaryEstimates := some { results := none } } }]
        = Except.ok [] :=
  ⟨rfl, rfl, rfl, rfl⟩

/-- Filtering out a present element strictly shrinks a list. -/
theorem length_filter_lt_of_mem {α : Type} {l : List α} {p : α → Bool} {a : α}
    (ha : a ∈ l) (hpa : p a = false) : (l.filter p).length < l.length := by
  induction l with
  | nil => cases ha
  | cons hd tl ih =>
    rcases List.mem_cons.mp ha with rfl | hmem
    · rw [List.filter_cons, hpa]
      exact Nat.lt_succ_of_le (List.length_filter_le p tl)
    · rw [List.filter_cons]
      by_cases hp : p hd = true
      · simpa [hp] using Nat.succ_lt_succ (ih hmem)
      · rw [Bool.not_eq_true] at hp
        simpa [hp] using Nat.lt_succ_of_lt (ih hmem)

/-! ### Claim C2: cache set/get round trip and expiry -/

/-- C2 counterexample: at exactly 60 s after a set with TTL 60 the entry is
still returned (the code expires strictly after `expiresAt`, see the
greater-than comparison at cache.ts line 75), although the instant lies at
least 60 s after the set. -/
theorem c2_expiry_boundary_counterexample :
    0 + 60 * 1000 ≤ 60000
    ∧ (getCacheValue (setCacheValue ([] : Cache Nat) 0 "k" 7 60) 60000 "k").1 = some 7 :=
  ⟨by omega, rfl⟩

/-- C2 amended: an immediate get after a set with TTL 60 returns the value;
at every instant STRICTLY past the expiry time (set instant plus 60000 ms)
the get returns absent, deletes the binding, and the following stats no
longer count it; and a get never returns an entry whose expiry lies
strictly in the past. -/
theorem c2_cache_roundtrip_amended {α : Type} (sz : α → Nat) (c : Cache α)
    (now : Nat) (k : String) (v : α) (now' : Nat) (h : now + 60 * 1000 < now') :
    (getCacheValue (setCacheValue c now k v 60) now k).1 = some v
    ∧ (getCacheValue (setCacheValue c now k v 60) now' k).1 = none
    ∧ cacheLookup (getCacheValue (setCacheValue c now k v 60) now' k).2 k = none
    ∧ (getCacheStats sz (getCacheValue (setCacheValue c now k v 60) now' k).2).totalEntries + 1
        = (getCacheStats sz (setCacheValue c now k v 60)).totalEntries
    ∧ (∀ (c2 : Cache α) (t : Nat) (k2 : String) (e : CacheEntry α),
        cacheLookup c2 k2 = some e → e.expiresAt < t →
        (getCacheValue c2 t k2).1 = none) := by
  have hlk : cacheLookup (setCacheValue c now k v 60) k
      = some { value := v, expiresAt := now + 60 * 1000 } := by
    unfold setCacheValue cacheLookup
    rw [List.find?_cons_of_pos _ (by simp)]
    rfl
  refine ⟨?_, ?_, ?_, ?_, ?_⟩
  · simp only [getCacheValue, hlk]
    rw [if_neg (by omega)]
  · simp only [getCacheValue, hlk]
    rw [if_pos (by omega)]
  · simp only [getCacheValue, hlk]
    rw [if_pos (by omega)]
    have h3 := cacheLookup_filter (setCacheValue c now k v 60) (fun s => s != k) k
    simp only [bne_self_eq_false, Bool.false_eq_true, if_false] at h3
    exact h3
  · simp only [getCacheValue, hlk]
    rw [if_pos (by omega)]
    unfold getCacheStats setCacheValue
    simp [List.filter_cons, List.filter_filter]
  · intro c2 t k2 e hlk2 hexp
    simp only [getCacheValue, hlk2]
    rw [if_pos (by omega)]

/-- C2 witness: the amended theorem instantiated at the empty cache, key k,
value 7, set at 0, re-read at 0 and at 60001 ms. -/
theorem c2_cache_roundtrip_amended_witness :
    (getCacheValue (setCacheValue ([] : Cache Nat) 0 "k" 7 60) 0 "k").1 = some 7
    ∧ (getCacheValue (setCacheValue ([] : Cache Nat) 0 "k" 7 60) 60001 "k").1 = none := by
  have h := c2_cache_roundtrip_amended (fun _ => 0) ([] : Cache Nat) 0 "k" 7 60001 (by omega)
  exact ⟨h.1, h.2.1⟩

/-! ### Claim C8: clearCache by prefix -/

/-- A cache holding a key whose namespace segment (companyx) is not the
cleared prefix (company) but whose raw string starts with it. -/
def c8DemoCache : Cache Nat :=
  [("companyx:a", { value := 1, expiresAt := 99 }),
   ("job:x", { value := 2, expiresAt := 99 })]

/-- C8 counterexample: clearing the prefix company also deletes the key
companyx:a, whose prefix segment is companyx, not company — the code
matches with raw startsWith, not by prefix segment. -/
theorem c8_collision_counterexample :
    keyNamespace "companyx:a" ≠ "company"
    ∧ clearCache c8DemoCache (some "company")
        = [("job:x", { value := 2, expiresAt := 99 })] := by
  exact ⟨by decide, by decide⟩

/-- C8 amended: clearCache with a prefix removes exactly the entries whose
raw key starts with that string (so a key such as companyx:a is also
removed), leaves every other entry in place, and clearCache without a
prefix removes every entry. -/
theorem c8_clearCache_amended {α : Type} (c : Cache α) (p k : String) :
    cacheLookup (clearCache c (some p)) k
      = (if jsStartsWith k p then none else cacheLookup c k)
    ∧ (∀ e : String × CacheEntry α,
        e ∈ clearCache c (some p) ↔ e ∈ c ∧ jsStartsWith e.1 p = false)
    ∧ clearCache c (none : Option String) = [] := by
  refine ⟨?_, ?_, rfl⟩
  · have h := cacheLookup_filter c (fun s => !(jsStartsWith s p)) k
    unfold clearCache
    by_cases hs : jsStartsWith k p <;> simp [hs] at h <;> simpa [hs] using h
  · intro e
    simp [clearCache, List.mem_filter]

/-! ### Claim C10: getCacheStats ignores expiry -/

/-- C10: the statistics count every stored entry regardless of the current
instant — the expired entry still contributes to totalEntries, to its
namespace bucket and to the memory estimate; it leaves the store only when
a get on its exact key deletes it (after which the count drops) or when a
clearCache with a matching prefix removes it. -/
theorem c10_stats_ignore_expiry {α : Type} (sz : α → Nat) (c : Cache α)
    (k : String) (e : CacheEntry α) (now : Nat)
    (hlk : cacheLookup c k = some e) (hexp : e.expiresAt < now) :
    (getCacheStats sz c).totalEntries = c.length
    ∧ 0 < (getCacheStats sz c).byPrefix (keyNamespace k)
    ∧ sz e.value * 2 ≤ (getCacheStats sz c).memoryUsageEstimate
    ∧ (getCacheValue c now k).1 = none
    ∧ cacheLookup (getCacheValue c now k).2 k = none
    ∧ (getCacheStats sz (getCacheValue c now k).2).totalEntries
        < (getCacheStats sz c).totalEntries
    ∧ (∀ pfx2, jsStartsWith k pfx2 = true →
        cacheLookup (clearCache c (some pfx2)) k = none) := by
  unfold cacheLookup at hlk
  rcases Option.map_eq_some'.mp hlk with ⟨pr, hfind, hpr2⟩
  have hmem : pr ∈ c := List.mem_of_find?_eq_some hfind
  have hk1 : pr.1 = k := by
    have := List.find?_some hfind
    simpa using this
  refine ⟨rfl, ?_, ?_, ?_, ?_, ?_, ?_⟩
  · exact List.length_pos_of_mem
      (List.mem_filter.mpr ⟨hmem, by rw [hk1]; simp⟩)
  · have hin := List.mem_map_of_mem (fun x => sz x.2.value * 2) hmem
    have hle := List.le_sum_of_mem hin
    simpa [getCacheStats, hpr2] using hle
  · simp only [getCacheValue, cacheLookup, hfind, Option.map_some']
    rw [hpr2, if_pos (by omega)]
  · simp only [getCacheValue, cacheLookup, hfind, Option.map_some']
    rw [hpr2, if_pos (by omega)]
    have h3 := cacheLookup_filter c (fun s => s != k) k
    simp only [bne_self_eq_false, Bool.false_eq_true, if_false] at h3
    exact h3
  · simp only [getCacheValue, cacheLookup, hfind, Option.map_some']
    rw [hpr2, if_pos (by omega)]
    refine length_filter_lt_of_mem hmem ?_
    rw [hk1]
    simp
  · intro pfx2 hsw
    unfold clearCache
    have h3 := cacheLookup_filter c (fun s => !(jsStartsWith s pfx2)) k
    rw [hsw] at h3
    simpa using h3

/-- The concrete store for the C10 witness: one entry already expired. -/
def c10DemoCache : Cache Nat := [("company:acme", { value := 42, expiresAt := 5 })]

/-- C10 witness: at instant 10 the stats still count the entry expired at
5; a get on its key returns absent and afterwards the count has dropped. -/
theorem c10_stats_ignore_expiry_witness :
    (getCacheStats (fun _ => 3) c10DemoCache).totalEntries = 1
    ∧ (getCacheValue c10DemoCache 10 "company:acme").1 = none
    ∧ (getCacheStats (fun _ => 3) (getCacheValue c10DemoCache 10 "company:acme").2).totalEntries < 1 := by
  have h := c10_stats_ignore_expiry (fun _ => 3) c10DemoCache "company:acme"
    { value := 42, expiresAt := 5 } 10 rfl (by decide)
  exact ⟨h.1, h.2.2.2.1, h.2.2.2.2.2.1⟩

/-! ### Orchestrator lemmas -/

/-- When the combined cache holds a fresh composed result under the key
computed from the raw arguments, getSalaryInfo returns it at once (no
lookup, no upstream call, no write). -/
theorem getSalaryInfo_cache_hit (up : Upstreams) (w : World) (cn jt : String)
    (r : ComposedResult) (c' : Cache CacheVal)
    (h : getCacheValue w.cache w.now (generateCacheKey cn jt)
        = (some (CacheVal.result r), c')) :
    getSalaryInfo up w cn jt = (Except.ok r, { w with cache := c' }) := by
  simp only [getSalaryInfo]
  rw [h]

/-! ### Claim C4: which inputs feed the combined cache key -/

/-- Upstream stubs for the C4 counterexample run: one Google employer, one
Engineer job title, one salary record. -/
def c4Up : Upstreams where
  companies := fun _ => [{ id := 1, name := "Google", overallRating := 4.2 }]
  jobs := fun _ => [{ id := 9, label := "Engineer" }]
  salaries := fun _ _ _ =>
    [{ currency := some { code := "USD" }
       salaryCount := some 5
       totalPayStatistics := some { percentiles :=
         [{ ident := "P25", value := 80000 },
          { ident := "P50", value := 100000 },
          { ident := "P75", value := 120000 }] } }]

/-- C4 counterexample: Google-comma-Inc-dot and Google sanitize to the same
string, yet their combined cache keys differ, and after a first full run
for the former, a call with the latter misses the combined cache and issues
a further upstream call (the salary fetch; the per-entity caches hit). -/
theorem c4_raw_key_counterexample :
    formatName "Google, Inc." = formatName "Google"
    ∧ generateCacheKey "Google, Inc." "Engineer" ≠ generateCacheKey "Google" "Engineer"
    ∧ (getSalaryInfo c4Up { cache := [], now := 0, upstreamCalls := 0 }
        "Google, Inc." "Engineer").2.upstreamCalls = 3
    ∧ (getSalaryInfo c4Up
        (getSalaryInfo c4Up { cache := [], now := 0, upstreamCalls := 0 }
          "Google, Inc." "Engineer").2
        "Google" "Engineer").2.upstreamCalls = 4 := by
  exact ⟨rfl, by decide, by decide, by decide⟩

/-- C4 amended: the combined cache key is computed from the RAW inputs by
trim-plus-lowercase (generateCacheKey); formatName is applied only to the
arguments of the per-entity lookups after the combined-cache check.  Hence
two raw input pairs that agree after trim-plus-lowercase share the combined
cache entry, and a fresh cached result under that key is returned as is. -/
theorem c4_combined_key_amended (up : Upstreams) (w : World)
    (cn jt cn2 jt2 : String) (r : ComposedResult) (c' : Cache CacheVal)
    (hc : normalizeInput cn = normalizeInput cn2)
    (hj : normalizeInput jt = normalizeInput jt2)
    (h : getCacheValue w.cache w.now (generateCacheKey cn jt)
        = (some (CacheVal.result r), c')) :
    generateCacheKey cn jt = generateCacheKey cn2 jt2
    ∧ getSalaryInfo up w cn2 jt2 = (Except.ok r, { w with cache := c' }) := by
  have hkey : generateCacheKey cn jt = generateCacheKey cn2 jt2 := by
    unfold generateCacheKey
    rw [hc, hj]
  exact ⟨hkey, getSalaryInfo_cache_hit up w cn2 jt2 r c' (hkey ▸ h)⟩

/-- The composed result stored in the cache for the C4 witness. -/
def c4WitnessResult : ComposedResult where
  company := { name := "Google", rating := 4.2 }
  job := { title := "Engineer", salaryCount := 5 }
  salary := { currency := some "USD", low := "$80 k", median := "$1 lakh",
              high := "$1 lakh", range := "$80 k - $1 lakh" }
  source := "Glassdoor"
  timestamp := 0

/-- The world holding that result under the raw-input combined key. -/
def c4WitnessWorld : World where
  cache := [("salary:google:engineer",
             { value := CacheVal.result c4WitnessResult, expiresAt := 100 })]
  now := 0
  upstreamCalls := 0

/-- C4 witness: Google-with-trailing-space and space-GOOGLE normalize
equally, so the second pair hits the entry the first pair addresses. -/
theorem c4_combined_key_amended_witness :
    getSalaryInfo c4Up c4WitnessWorld " GOOGLE" "engineer"
      = (Except.ok c4WitnessResult, c4WitnessWorld) :=
  (c4_combined_key_amended c4Up c4WitnessWorld "Google " "Engineer"
    " GOOGLE" "engineer" c4WitnessResult c4WitnessWorld.cache
    (by decide) (by decide) rfl).2

/-! ### Claim C1: the stubbed end-to-end flow -/

/-- The stubbed upstreams of the end-to-end scenario: one employer Acme
with rating 4.2, one job title Engineer, one salary record with P25/P50/P75
of 80000/100000/120000 USD. -/
def demoUp : Upstreams where
  companies := fun _ => [{ id := 1, name := "Acme", overallRating := 4.2 }]
  jobs := fun _ => [{ id := 9, label := "Engineer" }]
  salaries := fun _ _ _ =>
    [{ currency := some { code := "USD" }
       salaryCount := some 5
       totalPayStatistics := some { percentiles :=
         [{ ident := "P25", value := 80000 },
          { ident := "P50", value := 100000 },
          { ident := "P75", value := 120000 }] } }]

/-- The initial world of the scenario: empty cache, instant 0. -/
def demoW0 : World := { cache := [], now := 0, upstreamCalls := 0 }

/-- The composed result the code produces for the scenario: the median of
100000 USD lands in the at-least-one-lakh branch of formatSalary. -/
def demoResult : ComposedResult where
  company := { name := "Acme", rating := 4.2 }
  job := { title := "Engineer", salaryCount := 5 }
  salary := { currency := some "USD", low := "$80 k", median := "$1 lakh",
              high := "$1 lakh", range := "$80 k - $1 lakh" }
  source := "Glassdoor"
  timestamp := 0

/-- The world after the first call: three upstream calls made, three cache
entries written. -/
def demoW1 : World := (getSalaryInfo demoUp demoW0 "Acme" "Engineer").2

/-- C1 counterexample: on the stubbed scenario the composed median is the
string one-lakh, not 100-k — formatSalary sends 100000 into the lakh
branch, so the claimed median equality fails. -/
theorem c1_median_counterexample :
    (getSalaryInfo demoUp demoW0 "Acme" "Engineer").1 = Except.ok demoResult
    ∧ demoResult.salary.median = "$1 lakh"
    ∧ demoResult.salary.median ≠ "$100 k" :=
  ⟨rfl, rfl, by decide⟩

/-- C1 amended: on the stubbed scenario the composed result has median
one-lakh in dollars, and a second call with identical arguments at any
instant within the 15-day TTL of the combined entry returns the cached
result and issues zero further upstream calls. -/
theorem c1_e2e_amended (now' : Nat) (h : now' ≤ 1296000000) :
    (getSalaryInfo demoUp demoW0 "Acme" "Engineer").1 = Except.ok demoResult
    ∧ demoResult.salary.median = "$1 lakh"
    ∧ getSalaryInfo demoUp { demoW1 with now := now' } "Acme" "Engineer"
        = (Except.ok demoResult, { demoW1 with now := now' })
    ∧ (getSalaryInfo demoUp { demoW1 with now := now' } "Acme" "Engineer").2.upstreamCalls
        = (getSalaryInfo demoUp demoW0 "Acme" "Engineer").2.upstreamCalls := by
  have hkey : generateCacheKey "Acme" "Engineer" = "salary:acme:engineer" := rfl
  have hlk : cacheLookup demoW1.cache "salary:acme:engineer"
      = some { value := CacheVal.result demoResult, expiresAt := 1296000000 } := rfl
  have hget : getCacheValue demoW1.cache now' "salary:acme:engineer"
      = (some (CacheVal.result demoResult), demoW1.cache) := by
    unfold getCacheValue
    rw [hlk]
    dsimp only
    rw [if_neg (by omega)]
  have hhit := getSalaryInfo_cache_hit demoUp { demoW1 with now := now' }
      "Acme" "Engineer" demoResult demoW1.cache (by rw [hkey]; exact hget)
  refine ⟨rfl, rfl, ?_, ?_⟩
  · rw [hhit]
  · rw [hhit]
    rfl

/-- C1 witness: the amended theorem at the concrete re-read instant of
1000000 ms, within the TTL window. -/
theorem c1_e2e_amended_witness :
    getSalaryInfo demoUp { demoW1 with now := 1000000 } "Acme" "Engineer"
      = (Except.ok demoResult, { demoW1 with now := 1000000 }) :=
  (c1_e2e_amended 1000000 (by omega)).2.2.1

/-! ### Claim C5: asymmetric empty-result handling -/

/-- Keys of the company namespace never collide with keys of the job
namespace: the first character already differs. -/
theorem company_key_ne_job_key (a b : String) :
    generateCompanyCacheKey a ≠ generateJobCacheKey b := by
  unfold generateCompanyCacheKey generateJobCacheKey
  intro hcontra
  have hd := congrArg String.data hcontra
  rw [String.data_append, String.data_append] at hd
  have hc : "company:".data = 'c' :: "ompany:".data := rfl
  have hj : "job:".data = 'j' :: "ob:".data := rfl
  rw [hc, hj] at hd
  simp at hd

/-- C5: starting from an empty cache, an empty company-lookup list raises
the no-company error, a non-empty company list with an empty job-title list
raises the no-job-titles error, but an empty salary-lookup list does not
raise: the orchestrator composes the empty placeholder record (salaryCount
0, all formatted values N/A), caches it under the combined key, and returns
it. -/
theorem c5_empty_asymmetry (up : Upstreams) (now : Nat) (cn jt : String) :
    (up.companies (formatName cn) = [] →
      (getSalaryInfo up { cache := [], now := now, upstreamCalls := 0 } cn jt).1
        = Except.error ("No company found matching " ++ cn))
    ∧ (∀ comp comps, up.companies (formatName cn) = comp :: comps →
        up.jobs (formatName jt) = [] →
        (getSalaryInfo up { cache := [], now := now, upstreamCalls := 0 } cn jt).1
          = Except.error ("No job titles found matching " ++ jt))
    ∧ (∀ comp comps job jobs2, up.companies (formatName cn) = comp :: comps →
        up.jobs (formatName jt) = job :: jobs2 →
        up.salaries comp.id job.id job.label = [] →
        (getSalaryInfo up { cache := [], now := now, upstreamCalls := 0 } cn jt).1
          = Except.ok (composeResult { cache := [], now := now, upstreamCalls := 0 }
              comp.name comp.overallRating job.label [])
        ∧ (composeResult { cache := [], now := now, upstreamCalls := 0 }
            comp.name comp.overallRating job.label []).job.salaryCount = 0
        ∧ (composeResult { cache := [], now := now, upstreamCalls := 0 }
            comp.name comp.overallRating job.label []).salary.low = "N/A"
        ∧ (composeResult { cache := [], now := now, upstreamCalls := 0 }
            comp.name comp.overallRating job.label []).salary.median = "N/A"
        ∧ (composeResult { cache := [], now := now, upstreamCalls := 0 }
            comp.name comp.overallRating job.label []).salary.high = "N/A"
        ∧ (composeResult { cache := [], now := now, upstreamCalls := 0 }
            comp.name comp.overallRating job.label []).salary.range = "N/A - N/A"
        ∧ (cacheLookup (getSalaryInfo up { cache := [], now := now, upstreamCalls := 0 } cn jt).2.cache
              (generateCacheKey cn jt)).map CacheEntry.value
            = some (CacheVal.result
                (composeResult { cache := [], now := now, upstreamCalls := 0 }
                  comp.name comp.overallRating job.label []))) := by
  have hbeqCJ : (generateCompanyCacheKey (formatName cn)
      == generateJobCacheKey (formatName jt)) = false :=
    beq_eq_false_iff_ne.mpr (company_key_ne_job_key _ _)
  refine ⟨?_, ?_, ?_⟩
  · intro h1
    simp [getSalaryInfo, fetchGlassdoorCompanies, getCacheValue, cacheLookup, h1]
  · intro comp comps h1 h2
    simp [getSalaryInfo, fetchGlassdoorCompanies, fetchJobTitles, getCacheValue,
      cacheLookup, setCacheValue, h1, h2, List.find?_cons, hbeqCJ]
  · intro comp comps job jobs2 h1 h2 h3
    refine ⟨?_, rfl, rfl, rfl, rfl, rfl, ?_⟩
    · simp [getSalaryInfo, fetchGlassdoorCompanies, fetchJobTitles, fetchSalaries,
        composeResult, getCacheValue, cacheLookup, setCacheValue,
        h1, h2, h3, List.find?_cons, hbeqCJ]
    · simp [getSalaryInfo, fetchGlassdoorCompanies, fetchJobTitles, fetchSalaries,
        composeResult, getCacheValue, cacheLookup, setCacheValue,
        h1, h2, h3, List.find?_cons, hbeqCJ]

/-- Stubs for the C5 witness: a company and a job exist, but the salary
lookup returns the empty list. -/
def c5Up : Upstreams where
  companies := fun _ => [{ id := 3, name := "Acme", overallRating := 4 }]
  jobs := fun _ => [{ id := 7, label := "Clerk" }]
  salaries := fun _ _ _ => []

/-- C5 witness: with the stub returning no salary data, the orchestrator
still returns a composed result whose formatted median is N/A. -/
theorem c5_empty_asymmetry_witness :
    (getSalaryInfo c5Up { cache := [], now := 0, upstreamCalls := 0 } "Acme" "Clerk").1
      = Except.ok (composeResult { cache := [], now := 0, upstreamCalls := 0 }
          "Acme" 4 "Clerk" [])
    ∧ (composeResult { cache := [], now := 0, upstreamCalls := 0 }
        "Acme" 4 "Clerk" []).salary.median = "N/A" := by
  have h := (c5_empty_asymmetry c5Up 0 "Acme" "Clerk").2.2
    { id := 3, name := "Acme", overallRating := 4 } []
    { id := 7, label := "Clerk" } [] rfl rfl rfl
  exact ⟨h.1, h.2.2.2.1⟩

end GlassdoorApi
